import Mathlib

/-!
Shallow embedding of the advance-ledger calculator
(src/advances.py, src/event.py, src/utils.py).

Modelling conventions:
- Python `Decimal` values are exact rationals, so money is modelled as `ℚ`.
- Calendar dates are modelled by their proleptic-Gregorian day ordinal (`ℤ`,
  the value of Python's `date.toordinal()`); this is faithful because the
  code uses dates only through equality, ordering, and day differences
  (`(d1 - d0).days`).
- Python exceptions are modelled with `Except String`; the string records
  which exception is raised (ValueError in the payment waterfall,
  AttributeError when `last_event` is `None` in the driver).
- The mutable `AdvanceCalculator` object is modelled as an explicit state
  record (`CalcState`) threaded through each method.
- `OrderedDict` keyed by the advance counter is modelled as an
  insertion-ordered association list `List (Nat × AdvanceData)`; keys are
  produced by a strictly increasing counter, so insertion order is key order.
-/

/-- One input row `(id, kind, amount, date)`, as handed to `Event(*tuple)`
by the driver (`events` element in `get_advance_statistics`). -/
structure EvTuple where
  id : Nat
  type : String
  amount : ℚ
  date : ℤ
deriving DecidableEq, Repr

/-- The `Event` dataclass of src/event.py: kind, amount, date, plus the
traversal flags `is_last` / `is_same_date` and the `state` marker that the
driver sets to "truncated" on a synthetic boundary event. -/
structure Event where
  id : Nat
  type : String
  amount : ℚ
  date : ℤ
  is_last : Bool
  is_same_date : Bool
  state : Option String
deriving DecidableEq, Repr

/-- `Event(*t)` for an input tuple: flags default to `False`, `state` to
`None` (src/event.py lines 10-16). -/
def mkEvent (t : EvTuple) : Event :=
  ⟨t.id, t.type, t.amount, t.date, false, false, none⟩

/-- One stored advance record: the dict
`{"Date": ..., "Initial Amt": ..., "Current Balance": ..., "is_paid": ...}`
stored in `self.advances` (src/advances.py lines 247-252). -/
structure AdvanceData where
  date : ℤ
  initialAmt : ℚ
  currentBalance : ℚ
  is_paid : Bool
deriving DecidableEq, Repr

/-- The mutable state of an `AdvanceCalculator` instance
(src/advances.py `__init__`, lines 17-34). -/
structure CalcState where
  advance_balance : ℚ
  interest_payable_balance : ℚ
  interest_paid : ℚ
  payments_for_future : ℚ
  advances : List (Nat × AdvanceData)
  last_advance_balance : ℚ
  last_interest_payable_balance : ℚ
  last_interest_paid : ℚ
  last_payments_for_future : ℚ
  advance_count : Nat
  last_event : Option Event
  last_advance : Option Event
deriving DecidableEq, Repr

/-- A freshly constructed `AdvanceCalculator()`. -/
def initState : CalcState :=
  ⟨0, 0, 0, 0, [], 0, 0, 0, 0, 0, none, none⟩

/-- `LOAN_INTEREST_RATE = D(0.00035)` (src/advances.py line 11).  The
literal `0.00035` is a Python binary float, so `D(0.00035)` is the exact
value of the IEEE-754 binary64 number nearest to 0.00035, not the decimal
0.00035 itself.  Binary64 numbers in the binade [2^-12, 2^-11) containing
0.00035 are exactly the integer multiples of 2^-64, and the literal rounds
to the nearest such multiple. -/
def LOAN_INTEREST_RATE : ℚ :=
  ((round ((7 : ℚ) / 20000 * 2 ^ 64) : ℤ) : ℚ) / 2 ^ 64

/-- The `daily_interest` property (src/advances.py lines 36-39). -/
def daily_interest (s : CalcState) : ℚ :=
  LOAN_INTEREST_RATE * s.advance_balance

/-- `get_accrued_interests` (src/advances.py lines 41-54): day difference
between the two dates, minus one when not inclusive, times the daily
interest on the current advance balance. -/
def get_accrued_interests (s : CalcState) (event_date last_event_date : ℤ)
    (inclusive : Bool) : ℚ :=
  let date_delta : ℤ := event_date - last_event_date
  if inclusive = true then (date_delta : ℚ) * daily_interest s
  else ((date_delta : ℚ) - 1) * daily_interest s

/-- Result of the for-loop inside `_decrease_oldest_active_balance`
(src/advances.py lines 68-106): the updated advance list and the final
values of the loop-carried variables `self.advance_balance`,
`self.payments_for_future`, `remaining_amount` and
`is_using_payment_from_event`. -/
structure PayoffResult where
  advances : List (Nat × AdvanceData)
  advance_balance : ℚ
  payments_for_future : ℚ
  remaining_amount : ℚ
  is_using_payment_from_event : Bool
deriving DecidableEq, Repr

/-- The for-loop of `_decrease_oldest_active_balance` (src/advances.py
lines 70-106).  Paid advances are skipped; on the first unpaid advance the
three-way comparison of its balance with the remaining amount either zeroes
it exactly (break), pays a portion (break, zeroing `payments_for_future`
when consuming a cascaded overpay), or overpays it and continues the scan
with the overpay magnitude. -/
def decreaseLoop :
    List (Nat × AdvanceData) → ℚ → ℚ → ℚ → Bool → PayoffResult
  | [], ab, pf, rem, u => ⟨[], ab, pf, rem, u⟩
  | (k, a) :: rest, ab, pf, rem, u =>
    if a.is_paid = true then
      let r := decreaseLoop rest ab pf rem u
      ⟨(k, a) :: r.advances, r.advance_balance, r.payments_for_future,
        r.remaining_amount, r.is_using_payment_from_event⟩
    else
      let dec := a.currentBalance - rem
      if dec = 0 then
        ⟨(k, { a with currentBalance := 0, is_paid := true }) :: rest,
          ab - rem, pf, 0, u⟩
      else if dec > 0 then
        ⟨(k, { a with currentBalance := a.currentBalance - rem }) :: rest,
          ab - rem, if u = true then 0 else pf, 0, u⟩
      else
        let r := decreaseLoop rest (ab - a.currentBalance) |dec| |dec| true
        ⟨(k, { a with currentBalance := 0, is_paid := true }) :: r.advances,
          r.advance_balance, r.payments_for_future, r.remaining_amount,
          r.is_using_payment_from_event⟩

/-- `_decrease_oldest_active_balance` (src/advances.py lines 56-117): run
the scan, then, if a positive remainder is left while every stored advance
is paid and the remainder did not originate from a cascaded overpay, credit
it entirely to `payments_for_future`. -/
def decrease_oldest_active_balance (s : CalcState) (remaining_amount : ℚ) :
    CalcState :=
  let r := decreaseLoop s.advances s.advance_balance s.payments_for_future
    remaining_amount false
  let all_paid := r.advances.all fun p => p.2.is_paid
  let pf :=
    if r.remaining_amount > 0 ∧ all_paid = true ∧
        r.is_using_payment_from_event = false
    then r.payments_for_future + r.remaining_amount
    else r.payments_for_future
  { s with advances := r.advances, advance_balance := r.advance_balance,
           payments_for_future := pf }

/-- `_execute_payment_flow` (src/advances.py lines 119-208): the payment
waterfall.  Interest first (three-way comparison of the payment amount with
the positive interest payable balance), then FIFO payoff, then the
credit/advance-balance reconciliation, then optionally one day of interest;
raises ValueError when the interest payable balance is negative on entry
(the raise is the first statement of that branch, so no balance has been
modified when it fires). -/
def execute_payment_flow (s : CalcState) (current_event : Event)
    (increase_interest : Bool) : Except String CalcState :=
  if s.interest_payable_balance > 0 then
    let remaining_amount := current_event.amount - s.interest_payable_balance
    if remaining_amount = 0 then
      .ok { s with interest_paid := s.interest_paid + current_event.amount }
    else if remaining_amount < 0 then
      .ok { s with interest_paid := s.interest_paid + current_event.amount,
                   interest_payable_balance := |remaining_amount| }
    else
      let s1 := { s with
        interest_paid := s.interest_paid + s.interest_payable_balance,
        interest_payable_balance := 0 }
      let s2 := decrease_oldest_active_balance s1 remaining_amount
      let s3 :=
        if s2.payments_for_future > 0 ∧ s2.advance_balance > 0 then
          let diff := s2.advance_balance - s2.payments_for_future
          if diff = 0 then
            { s2 with advance_balance := 0, payments_for_future := 0 }
          else if diff > 0 then
            { s2 with advance_balance := s2.advance_balance - diff,
                      payments_for_future := 0 }
          else
            { s2 with advance_balance := 0, payments_for_future := |diff| }
        else if s2.advance_balance < 0 ∧ s2.interest_payable_balance = 0 then
          { s2 with payments_for_future := |s2.advance_balance|,
                    advance_balance := 0 }
        else s2
      .ok (if increase_interest = true then
            { s3 with interest_payable_balance :=
                s3.interest_payable_balance + daily_interest s3 }
          else s3)
  else if s.interest_payable_balance = 0 then
    .ok (decrease_oldest_active_balance s current_event.amount)
  else
    .error "ValueError: overall_interest_patable_balance can not be negative"

/-- `_create_advance` (src/advances.py lines 210-255): bump the counter,
net the requested amount against any positive banked credit, store the
record (unless the event is the synthetic truncated kind) with
`is_paid = False` even when the opening balance is zero, and optionally add
the opening balance to the aggregate advance balance. -/
def create_advance (s : CalcState) (event : Event) (update_balance : Bool) :
    CalcState :=
  let s := { s with advance_count := s.advance_count + 1 }
  let ea_pf : ℚ × ℚ :=
    if s.payments_for_future > 0 then
      let d := event.amount - s.payments_for_future
      if d > 0 then (d, 0)
      else if d = 0 then (0, 0)
      else (0, |d|)
    else (event.amount, s.payments_for_future)
  let event_amount := ea_pf.1
  let s := { s with payments_for_future := ea_pf.2 }
  let s :=
    if event.state = some "truncated" then s
    else { s with advances := s.advances ++
            [(s.advance_count, ⟨event.date, event.amount, event_amount, false⟩)] }
  if update_balance = true then
    { s with advance_balance := s.advance_balance + event_amount }
  else s

/-- The four `self.last_* = self.*` snapshot assignments at the top of
`process_event` (src/advances.py lines 274-278). -/
def snapshotBalances (s : CalcState) : CalcState :=
  { s with last_advance_balance := s.advance_balance,
           last_interest_payable_balance := s.interest_payable_balance,
           last_interest_paid := s.interest_paid,
           last_payments_for_future := s.payments_for_future }

/-- `process_event` (src/advances.py lines 257-312).  Equal dates: mark the
next event same-date and apply the event without interest; differing dates:
apply the event, for an advance closing a same-date run convert a negative
aggregate balance into banked credit, then add the inclusive accrued
interest for the gap.  Returns the new state together with the (possibly
mutated) next event, since the driver keeps reading the same object. -/
def process_event (s : CalcState) (event next_event : Event) :
    Except String (CalcState × Event) :=
  let s := snapshotBalances s
  if event.date = next_event.date then
    let ne := { next_event with is_same_date := true }
    let r : Except String CalcState :=
      if event.type = "advance" then .ok (create_advance s event true)
      else if event.type = "payment" then execute_payment_flow s event false
      else .ok s
    r.map fun s1 => ({ s1 with last_event := some event }, ne)
  else
    if event.type = "advance" then
      let s1 := create_advance s event true
      let s2 :=
        if event.is_same_date = true ∧ s1.advance_balance < 0 then
          { s1 with
            payments_for_future := s1.payments_for_future + |s1.advance_balance|,
            advance_balance := 0 }
        else s1
      let s3 := { s2 with
        interest_payable_balance := s2.interest_payable_balance +
          get_accrued_interests s2 next_event.date event.date true,
        last_advance := some event }
      .ok ({ s3 with last_event := some event }, next_event)
    else if event.type = "payment" then
      (execute_payment_flow s event false).map fun s1 =>
        ({ s1 with
            interest_payable_balance := s1.interest_payable_balance +
              get_accrued_interests s1 next_event.date event.date true,
            last_event := some event }, next_event)
    else
      .ok ({ s with last_event := some event }, next_event)

/-- `_get_future_event` (src/advances.py lines 314-321): index the event
list, returning `None` on IndexError. -/
def get_future_event (events : List EvTuple) (future_event_count : Nat) :
    Option Event :=
  (events.get? future_event_count).map mkEvent

/-- Outcome of the main while-loop of `get_advance_statistics`
(src/advances.py lines 360-383): an early `return D(0), ...` when an
event's date exceeds the end date, a propagated exception, or normal exit
carrying the final values of the Python variables `event_count`, `event`,
`next_event` and `is_end_date_detected`. -/
inductive LoopOutcome where
  | early (s : CalcState)
  | err (msg : String)
  | done (event_count : Nat) (event : Option Event)
      (next_event : Option Event) (is_end_date_detected : Bool)
      (s : CalcState)
deriving Repr

/-- The value of `getattr(next_event, "is_last", False)`. -/
def optIsLast : Option Event → Bool
  | none => false
  | some e => e.is_last

/-- The value of `getattr(next_event, "is_same_date", False)`. -/
def optIsSameDate : Option Event → Bool
  | none => false
  | some e => e.is_same_date

/-- The main while-loop of `get_advance_statistics` (src/advances.py lines
360-383).  The loop runs while `event_count < total_events` and the
previous next-event is not marked last; each iteration either returns
zeros (event date past the end date), breaks with the end date detected,
or processes the pair and advances by one.  `fuel` starts at
`events.length`, which bounds the number of iterations (each one
increments `event_count` by 1 and `event_count < total_events =
events.length - 1`), so the fuel-exhaustion branch repeats the
loop-condition-false exit and is never the deciding case. -/
def mainLoop (events : List EvTuple) (end_date : ℤ) (total_events : ℤ) :
    Nat → Nat → Option Event → Option Event → CalcState → LoopOutcome
  | 0, ec, ev, ne, s => .done ec ev ne false s
  | fuel + 1, ec, ev, ne, s =>
    if (ec : ℤ) < total_events ∧ optIsLast ne = false then
      let nec := ec + 1
      match events.get? ec with
      | none => .err "IndexError"
      | some t =>
        let event := mkEvent t
        if event.date > end_date then .early s
        else
          let event :=
            if optIsSameDate ne = true then { event with is_same_date := true }
            else event
          match events.get? nec with
          | none => .err "IndexError"
          | some t' =>
            let next_event := mkEvent t'
            if (nec : ℤ) = total_events then
              let next_event := { next_event with is_last := true }
              match process_event s event next_event with
              | .error m => .err m
              | .ok (s', ne') =>
                mainLoop events end_date total_events fuel (ec + 1)
                  (some event) (some ne') s'
            else if event.date < end_date ∧ end_date ≤ next_event.date then
              .done ec (some event) (some { next_event with is_last := true })
                true s
            else
              match process_event s event next_event with
              | .error m => .err m
              | .ok (s', ne') =>
                mainLoop events end_date total_events fuel (ec + 1)
                  (some event) (some ne') s'
    else .done ec ev ne false s

/-- The same-date lookahead loop of `get_advance_statistics`
(src/advances.py lines 387-411), entered when the detected end date equals
the next event's date: keep applying same-date pairs until the run of
events sharing that date ends (no future event, or a future event with a
different date), then clamp the last one's date to the end date and apply
it.  Returns the final state and the final `next_event` object (which
becomes `last_event`).  `fuel` starts at `events.length + 1`; every
recursive call increments `event_count`, and the loop always returns once
`event_count + 2` runs past the list, so the fuel-exhaustion branch is
never the deciding case. -/
def lookaheadLoop (events : List EvTuple) (end_date : ℤ) :
    Nat → Nat → Event → Event → CalcState → Except String (CalcState × Event)
  | 0, _, _, ne, s => .ok (s, ne)
  | fuel + 1, event_count, event, next_event, s =>
    let future_event_count := event_count + 2
    match get_future_event events future_event_count with
    | none =>
      let ne := { next_event with is_last := true, date := end_date }
      process_event s event ne
    | some future_event =>
      if next_event.date ≠ future_event.date then
        let ne := { next_event with date := end_date }
        process_event s event ne
      else
        let ne := { next_event with is_last := false }
        match process_event s event ne with
        | .error m => .error m
        | .ok (s', _) =>
          let ec := event_count + 1
          match events.get? ec, events.get? (ec + 1) with
          | some t1, some t2 =>
            lookaheadLoop events end_date fuel ec (mkEvent t1) (mkEvent t2) s'
          | _, _ => .error "IndexError"

/-- The finalization of `get_advance_statistics` (src/advances.py lines
420-436): apply the terminal event once more.  If its date equals the end
date, apply it and accrue one extra day; if the end date lies beyond it,
apply it, accrue one day, and add the inclusive accrued interest for the
remaining gap. -/
def finalizeStats (s : CalcState) (last_event : Event) (end_date : ℤ) :
    Except String CalcState :=
  if last_event.date = end_date then
    if last_event.type = "advance" then
      let s1 := create_advance s last_event true
      .ok { s1 with interest_payable_balance :=
              s1.interest_payable_balance + daily_interest s1 }
    else if last_event.type = "payment" then
      (execute_payment_flow s last_event false).map fun s1 =>
        { s1 with interest_payable_balance :=
            s1.interest_payable_balance + daily_interest s1 }
    else .ok s
  else if end_date > last_event.date then
    let r : Except String CalcState :=
      if last_event.type = "advance" then .ok (create_advance s last_event true)
      else if last_event.type = "payment" then
        execute_payment_flow s last_event false
      else .ok s
    r.map fun s1 =>
      let s2 := { s1 with interest_payable_balance :=
                    s1.interest_payable_balance + daily_interest s1 }
      { s2 with interest_payable_balance :=
          s2.interest_payable_balance +
            get_accrued_interests s2 end_date last_event.date true }
  else .ok s

/-- `get_advance_statistics` (src/advances.py lines 323-443).  Runs the
main pair loop, then the end-date-detected block (same-date lookahead, or a
synthetic truncated boundary event), then dereferences
`last_event = next_event` — raising AttributeError when it is still `None`
— and finalizes, returning the absolute values of the four balances
together with the final engine state. -/
def get_advance_statistics (s : CalcState) (events : List EvTuple)
    (end_date : ℤ) : Except String ((ℚ × ℚ × ℚ × ℚ) × CalcState) :=
  let total_events : ℤ := (events.length : ℤ) - 1
  match mainLoop events end_date total_events events.length 0 none none s with
  | .early s' => .ok ((0, 0, 0, 0), s')
  | .err m => .error m
  | .done event_count evOpt neOpt is_end_date_detected s1 =>
    let afterDetected : Except String (CalcState × Option Event) :=
      if is_end_date_detected = true then
        match evOpt, neOpt with
        | some event, some next_event =>
          if end_date = next_event.date then
            (lookaheadLoop events end_date (events.length + 1) event_count
              event next_event s1).map fun p => (p.1, some p.2)
          else
            let ne := { next_event with date := end_date, amount := 0 }
            (process_event s1 event ne).map fun p =>
              (p.1, some { p.2 with state := some "truncated" })
        | _, _ => .error "NameError"
      else .ok (s1, neOpt)
    afterDetected.bind fun p =>
      match p.2 with
      | none => .error "AttributeError: NoneType object has no attribute date"
      | some last_event =>
        (finalizeStats p.1 last_event end_date).map fun s2 =>
          ((|s2.advance_balance|, |s2.interest_payable_balance|,
            |s2.interest_paid|, |s2.payments_for_future|), s2)

/-- The per-record part of the spec's stored-advance invariant that the code
actually maintains: the balance is non-negative, and a paid advance has
balance exactly zero.  (The spec's full biconditional
`current_balance == 0 ⇔ paid` fails in the code: `_create_advance` stores a
zero-opening advance with `is_paid = False`.) -/
def AdvRecInv (a : AdvanceData) : Prop :=
  0 ≤ a.currentBalance ∧ (a.is_paid = true → a.currentBalance = 0)

/-- Every stored advance record of the state satisfies `AdvRecInv`. -/
def AdvInv (s : CalcState) : Prop := ∀ p ∈ s.advances, AdvRecInv p.2

/-! Helper lemmas: preservation of the stored-advance invariant by the
payoff scan and by the two balance-mutating operations. -/

/-- The payoff scan only rewrites records to balance `0` with
`is_paid = true`, or to a strictly positive balance with the paid flag
untouched, so it preserves `AdvRecInv` on every record. -/
theorem decreaseLoop_inv (l : List (Nat × AdvanceData)) (ab pf rem : ℚ) (u : Bool)
    (h : ∀ p ∈ l, AdvRecInv p.2) :
    ∀ p ∈ (decreaseLoop l ab pf rem u).advances, AdvRecInv p.2 := by
  induction l generalizing ab pf rem u with
  | nil =>
    intro p hp
    simp [decreaseLoop] at hp
  | cons hd tl ih =>
    obtain ⟨k, a⟩ := hd
    have hhd : AdvRecInv a := h (k, a) (by simp)
    have htl : ∀ p ∈ tl, AdvRecInv p.2 := fun p hp => h p (by simp [hp])
    intro p hp
    simp only [decreaseLoop] at hp
    split_ifs at hp with h1 h2 h3 h4 <;> dsimp only at hp
    · rcases List.mem_cons.mp hp with rfl | hmem
      · exact hhd
      · exact ih ab pf rem u htl p hmem
    · rcases List.mem_cons.mp hp with rfl | hmem
      · exact ⟨le_refl 0, fun _ => rfl⟩
      · exact htl p hmem
    · rcases List.mem_cons.mp hp with rfl | hmem
      · exact ⟨le_of_lt h3, fun hc => absurd hc h1⟩
      · exact htl p hmem
    · rcases List.mem_cons.mp hp with rfl | hmem
      · exact ⟨le_of_lt h3, fun hc => absurd hc h1⟩
      · exact htl p hmem
    · rcases List.mem_cons.mp hp with rfl | hmem
      · exact ⟨le_refl 0, fun _ => rfl⟩
      · exact ih (ab - a.currentBalance) |a.currentBalance - rem|
          |a.currentBalance - rem| true htl p hmem

/-- The post-scan credit top-up touches only `payments_for_future`, so the
whole payoff routine preserves the stored-advance invariant. -/
theorem decrease_oldest_active_balance_inv (s : CalcState) (rem : ℚ)
    (h : AdvInv s) : AdvInv (decrease_oldest_active_balance s rem) := by
  intro p hp
  simp only [decrease_oldest_active_balance] at hp
  exact decreaseLoop_inv s.advances s.advance_balance s.payments_for_future rem
    false h p hp

/-- Advance creation preserves the invariant when the event amount is
non-negative: the stored opening balance is the positive credit difference,
zero, or the full (non-negative) requested amount, always with
`is_paid = false`. -/
theorem create_advance_inv (s : CalcState) (e : Event) (ub : Bool)
    (h : AdvInv s) (hamt : 0 ≤ e.amount) : AdvInv (create_advance s e ub) := by
  intro p hp
  simp only [create_advance] at hp
  split_ifs at hp with h1 h2 h3 h4 h5 <;> dsimp only at hp <;>
    first
      | exact h p hp
      | (rcases List.mem_append.mp hp with hmem | hnew
         · exact h p hmem
         · rcases List.mem_singleton.mp hnew with rfl
           refine ⟨?_, fun hc => absurd hc (by simp)⟩
           dsimp only
           first
             | linarith
             | exact le_refl 0
             | exact hamt)

/-- The payment waterfall only changes the stored records through the
payoff scan, so it preserves the stored-advance invariant whenever it
returns a state. -/
theorem execute_payment_flow_inv (s : CalcState) (e : Event) (inc : Bool)
    (s' : CalcState) (h : AdvInv s)
    (hok : execute_payment_flow s e inc = .ok s') : AdvInv s' := by
  simp only [execute_payment_flow] at hok
  split_ifs at hok <;>
    first
      | (injection hok with hok
         subst hok
         intro p hp
         first
           | exact h p hp
           | exact decrease_oldest_active_balance_inv _ _ h p hp)
      | exact absurd hok (by simp)

/-! Claim theorems. -/

/-- C1 (corrected): in the r > 0 waterfall branch, when after the FIFO
payoff both the banked credit and the advance balance are strictly positive
with the credit strictly smaller, the code subtracts the
difference `advance_balance - payments_for_future` from the advance
balance — leaving the advance balance EQUAL to the credit — and zeroes the
credit.  The claim's `new = old - credit` is what fails (see
`C1_counterexample`). -/
theorem C1_reconcile_credit_smaller (s : CalcState) (ev : Event) (mid : CalcState)
    (hpos : 0 < s.interest_payable_balance)
    (hr : 0 < ev.amount - s.interest_payable_balance)
    (hmid : mid = decrease_oldest_active_balance
        { s with interest_paid := s.interest_paid + s.interest_payable_balance,
                 interest_payable_balance := 0 }
        (ev.amount - s.interest_payable_balance))
    (hpf : 0 < mid.payments_for_future)
    (hab : 0 < mid.advance_balance)
    (hlt : mid.payments_for_future < mid.advance_balance) :
    ∃ s', execute_payment_flow s ev false = .ok s' ∧
      s'.advance_balance = mid.payments_for_future ∧
      s'.payments_for_future = 0 := by
  have hne0 : ev.amount - s.interest_payable_balance ≠ 0 := ne_of_gt hr
  have hnlt : ¬(ev.amount - s.interest_payable_balance < 0) := asymm hr
  have hd : 0 < mid.advance_balance - mid.payments_for_future := sub_pos.mpr hlt
  have hdne : mid.advance_balance - mid.payments_for_future ≠ 0 := ne_of_gt hd
  refine ⟨{ mid with
      advance_balance :=
        mid.advance_balance - (mid.advance_balance - mid.payments_for_future),
      payments_for_future := 0 }, ?_, ?_, rfl⟩
  · simp only [execute_payment_flow, if_pos hpos, if_neg hne0, if_neg hnlt, ← hmid,
      if_pos (And.intro hpf hab), if_neg hdne, if_pos hd]
    rfl
  · simp only
    ring

/-- C1 counterexample: state with aggregate advance balance 20, interest
payable 1, a single unpaid advance of balance 5, payment of 13
(so r = 12).  The payoff leaves mid advance balance 15 and credit 7
(hypotheses of the claim hold: 7 > 0, 15 > 0, 7 < 15), but the waterfall
produces advance balance 7, not the claimed 15 - 7 = 8. -/
theorem C1_counterexample :
    decrease_oldest_active_balance
        ⟨20, 0, 0 + 1, 0, [(1, ⟨0, 5, 5, false⟩)], 0, 0, 0, 0, 1, none, none⟩ 12 =
      ⟨15, 0, 0 + 1, 7, [(1, ⟨0, 5, 0, true⟩)], 0, 0, 0, 0, 1, none, none⟩ ∧
    execute_payment_flow
        ⟨20, 1, 0, 0, [(1, ⟨0, 5, 5, false⟩)], 0, 0, 0, 0, 1, none, none⟩
        ⟨1, "payment", 13, 0, false, false, none⟩ false =
      .ok ⟨7, 0, 1, 0, [(1, ⟨0, 5, 0, true⟩)], 0, 0, 0, 0, 1, none, none⟩ ∧
    (0 : ℚ) < 1 ∧ (0 : ℚ) < 13 - 1 ∧ (0 : ℚ) < 7 ∧ (0 : ℚ) < 15 ∧ (7 : ℚ) < 15 ∧
    (7 : ℚ) ≠ 15 - 7 := by
  refine ⟨?_, ?_, by norm_num⟩
  · norm_num [decrease_oldest_active_balance, decreaseLoop]
  · norm_num [execute_payment_flow, decrease_oldest_active_balance, decreaseLoop,
      daily_interest]

/-- C1 witness: the corrected statement at the counterexample's input:
the resulting advance balance equals the credit (7) and the credit is
zeroed. -/
theorem C1_witness :
    ∃ s', execute_payment_flow
        ⟨20, 1, 0, 0, [(1, ⟨0, 5, 5, false⟩)], 0, 0, 0, 0, 1, none, none⟩
        ⟨1, "payment", 13, 0, false, false, none⟩ false = .ok s' ∧
      s'.advance_balance = 7 ∧ s'.payments_for_future = 0 := by
  have h := C1_reconcile_credit_smaller
    ⟨20, 1, 0, 0, [(1, ⟨0, 5, 5, false⟩)], 0, 0, 0, 0, 1, none, none⟩
    ⟨1, "payment", 13, 0, false, false, none⟩
    ⟨15, 0, 0 + 1, 7, [(1, ⟨0, 5, 0, true⟩)], 0, 0, 0, 0, 1, none, none⟩
    (by norm_num) (by norm_num)
    (by norm_num [decrease_oldest_active_balance, decreaseLoop])
    (by norm_num) (by norm_num) (by norm_num)
  simpa using h

/-- C2 (confirmed): when the interest payable balance is strictly positive
and the payment amount exactly equals it (`r == 0`), the waterfall adds the
full payment amount to interest paid and changes NOTHING else: the interest
payable balance is left at its old (non-zero) value, and the advances,
advance balance and banked credit are untouched — no FIFO payoff runs. -/
theorem C2_exact_interest_payment (s : CalcState) (ev : Event) (inc : Bool)
    (hpos : 0 < s.interest_payable_balance)
    (heq : ev.amount = s.interest_payable_balance) :
    execute_payment_flow s ev inc =
      .ok { s with interest_paid := s.interest_paid + ev.amount } := by
  have h0 : ev.amount - s.interest_payable_balance = 0 := sub_eq_zero_of_eq heq
  simp [execute_payment_flow, hpos, h0]

/-- C2 witness: interest payable 5, payment of 5: interest paid becomes 5
and interest payable stays 5. -/
theorem C2_witness :
    execute_payment_flow ⟨0, 5, 0, 0, [], 0, 0, 0, 0, 0, none, none⟩
        ⟨1, "payment", 5, 0, false, false, none⟩ true =
      .ok ⟨0, 5, 0 + 5, 0, [], 0, 0, 0, 0, 0, none, none⟩ :=
  C2_exact_interest_payment ⟨0, 5, 0, 0, [], 0, 0, 0, 0, 0, none, none⟩
    ⟨1, "payment", 5, 0, false, false, none⟩ true (by norm_num) rfl

/-- C3 (corrected): the stored-advance invariant the code actually keeps:
from a fresh engine, and across both operations (advance creation with a
non-negative event amount, and any successful payment processing), every
stored advance has a non-negative current balance, and a paid advance has
balance exactly zero.  The claim's full biconditional
`current_balance == 0 ⇔ paid` fails: see `C3_counterexample`. -/
theorem C3_advance_invariant :
    AdvInv initState ∧
    (∀ s e ub, AdvInv s → 0 ≤ e.amount → AdvInv (create_advance s e ub)) ∧
    (∀ s e inc s', AdvInv s → execute_payment_flow s e inc = .ok s' →
      AdvInv s') := by
  refine ⟨?_, create_advance_inv, execute_payment_flow_inv⟩
  intro p hp
  simp [initState] at hp

/-- C3 counterexample: from a fresh engine, a payment of 100 banks a credit
of 100; the next advance of 50 is fully pre-funded and is stored with
current balance 0 but `is_paid = false`, violating the claimed
`current_balance == 0 ⇔ paid == true`. -/
theorem C3_counterexample :
    execute_payment_flow initState ⟨1, "payment", 100, 0, false, false, none⟩ true =
      .ok ⟨0, 0, 0, 100, [], 0, 0, 0, 0, 0, none, none⟩ ∧
    (create_advance ⟨0, 0, 0, 100, [], 0, 0, 0, 0, 0, none, none⟩
        ⟨2, "advance", 50, 0, false, false, none⟩ true).advances =
      [(1, ⟨0, 50, 0, false⟩)] ∧
    (0 : ℚ) = 0 ∧ false ≠ true := by
  have hopt : ((none : Option String) = some "truncated") = False := by simp
  refine ⟨?_, ?_, rfl, by simp⟩
  · norm_num [execute_payment_flow, decrease_oldest_active_balance, decreaseLoop,
      initState, daily_interest]
  · norm_num [create_advance, hopt]

/-- C3 witness: the preserved invariant evaluated after creating an advance
of 7 on a fresh engine. -/
theorem C3_witness :
    AdvInv (create_advance initState ⟨1, "advance", 7, 0, false, false, none⟩ true) :=
  C3_advance_invariant.2.1 initState ⟨1, "advance", 7, 0, false, false, none⟩ true
    (fun p hp => by simp [initState] at hp) (by norm_num)

/-- C4 (confirmed): FIFO payoff with overpay cascade.  With exactly two
unpaid advances A (inserted first, balance a) and B (balance b), and a
post-interest remainder r that strictly overpays A (a < r) without fully
retiring B (r - a < b), the scan marks A paid (balance 0), continues to B,
and leaves B unpaid with its balance decreased by exactly the excess
r - a. -/
theorem C4_fifo_overpay_cascade (s : CalcState) (k1 k2 : Nat) (d1 d2 : ℤ)
    (i1 i2 a b r : ℚ)
    (hadv : s.advances = [(k1, ⟨d1, i1, a, false⟩), (k2, ⟨d2, i2, b, false⟩)])
    (hA : a < r) (hB : r - a < b) :
    (decrease_oldest_active_balance s r).advances =
      [(k1, ⟨d1, i1, 0, true⟩), (k2, ⟨d2, i2, b - (r - a), false⟩)] := by
  have h1 : a - r < 0 := sub_neg.mpr hA
  have h2 : |a - r| = r - a := by
    rw [abs_of_neg h1]
    ring
  have h3 : 0 < b - (r - a) := sub_pos.mpr hB
  simp [decrease_oldest_active_balance, hadv, decreaseLoop, h1.ne, asymm h1, h2,
    h3, h3.ne']

/-- C4 witness: advances of balances 5 and 10, remainder 8: the first is
paid off, the second drops to 7 = 10 - (8 - 5) and stays unpaid. -/
theorem C4_witness :
    (decrease_oldest_active_balance
        ⟨15, 0, 0, 0, [(1, ⟨0, 5, 5, false⟩), (2, ⟨0, 10, 10, false⟩)],
          0, 0, 0, 0, 2, none, none⟩ 8).advances =
      [(1, ⟨0, 5, 0, true⟩), (2, ⟨0, 10, 7, false⟩)] := by
  have h := C4_fifo_overpay_cascade
    ⟨15, 0, 0, 0, [(1, ⟨0, 5, 5, false⟩), (2, ⟨0, 10, 10, false⟩)],
      0, 0, 0, 0, 2, none, none⟩ 1 2 0 0 5 10 5 10 8 rfl (by norm_num) (by norm_num)
  norm_num at h
  exact h

/-- C5 (confirmed): the payment waterfall raises (returns an error) exactly
when the interest payable balance is strictly negative on entry; for
non-negative interest payable it always returns a state.  In the negative
case the raise is the first statement of its branch, so no balance has been
modified (nothing is clamped) when the exception propagates. -/
theorem C5_negative_interest_error_iff (s : CalcState) (ev : Event) (inc : Bool) :
    (∃ m, execute_payment_flow s ev inc = .error m) ↔
      s.interest_payable_balance < 0 := by
  constructor
  · rintro ⟨m, hm⟩
    by_contra hge
    push_neg at hge
    rcases lt_or_eq_of_le hge with h | h
    · simp only [execute_payment_flow, if_pos h] at hm
      split_ifs at hm
    · simp [execute_payment_flow, ← h] at hm
  · intro h
    refine ⟨"ValueError: overall_interest_patable_balance can not be negative", ?_⟩
    simp [execute_payment_flow, h.asymm, h.ne]

/-- C6 (corrected): the daily interest rate is NOT the exact decimal
0.00035.  `D(0.00035)` converts the binary float literal 0.00035, whose
exact value is the nearest 53-bit multiple of 2 to the -64 in the binade of
0.00035; this theorem pins that value. -/
theorem C6_rate_is_float64 :
    LOAN_INTEREST_RATE = (6456360425798343 : ℚ) / 2 ^ 64 := by
  have h : round ((7 : ℚ) / 20000 * 2 ^ 64) = 6456360425798343 := by
    rw [round_eq, Int.floor_eq_iff]
    constructor
    · norm_num
    · norm_num
  rw [LOAN_INTEREST_RATE, h]
  norm_num

/-- C6 counterexample: the rate used for every interest accrual differs
from the exact decimal 0.00035 = 7/20000. -/
theorem C6_counterexample : LOAN_INTEREST_RATE ≠ 7 / 20000 := by
  have h : round ((7 : ℚ) / 20000 * 2 ^ 64) = 6456360425798343 := by
    rw [round_eq, Int.floor_eq_iff]
    constructor
    · norm_num
    · norm_num
  rw [LOAN_INTEREST_RATE, h]
  norm_num

/-- C7 (corrected): for every events list with AT LEAST TWO events whose
first event's date is strictly later than the end date,
`get_advance_statistics` returns (0, 0, 0, 0) immediately with the engine
state untouched.  The claim's "every events list" fails for one-element
lists, which crash instead: see `C7_counterexample`. -/
theorem C7_before_first_event (s : CalcState) (end_date : ℤ) (a b : EvTuple)
    (l : List EvTuple) (hdate : end_date < a.date) :
    get_advance_statistics s (a :: b :: l) end_date = .ok ((0, 0, 0, 0), s) := by
  have hlen : (0 : ℤ) < ((a :: b :: l).length : ℤ) - 1 := by
    simp only [List.length_cons]
    push_cast
    omega
  simp [get_advance_statistics, mainLoop, optIsLast, mkEvent, hdate, hlen]

/-- C7 counterexample: a one-element events list whose (first) event date 5
exceeds the end date 1 does not return zeros: the driver's main loop never
runs (`total_events = 0`), `next_event` stays `None`, and the final
`last_event.date` dereference raises AttributeError. -/
theorem C7_counterexample :
    get_advance_statistics initState [⟨1, "advance", 1000, 5⟩] 1 =
      .error "AttributeError: NoneType object has no attribute date" := rfl

/-- C7 witness: a two-element list with first date 5 > end date 1 returns
zeros and leaves the fresh engine state unchanged. -/
theorem C7_witness :
    get_advance_statistics initState [⟨1, "advance", 1000, 5⟩, ⟨2, "payment", 1, 6⟩] 1 =
      .ok ((0, 0, 0, 0), initState) :=
  C7_before_first_event initState 1 ⟨1, "advance", 1000, 5⟩ ⟨2, "payment", 1, 6⟩ []
    (by norm_num)

/-- C8 (code bug): the spec's scenario — a single advance of 1000 on
2023-01-01 (ordinal 738521), no payments, end date 2023-01-11 (738531) —
does not produce (1000, rate × 1000 × 10, 0, 0): with a one-element events
list the driver's loop bound `total_events = 0` keeps the loop from running,
`next_event` stays `None`, and `last_event.date` raises AttributeError. -/
theorem C8_single_event_crash :
    get_advance_statistics initState [⟨1, "advance", 1000, 738521⟩] 738531 =
      .error "AttributeError: NoneType object has no attribute date" := rfl

/-- C9 (confirmed): for every events list with one element or none and any
end date, `get_advance_statistics` never runs the loop body (`total_events`
is 0 or -1), `next_event` stays `None`, and the final `last_event.date`
dereference raises AttributeError instead of returning a 4-tuple. -/
theorem C9_short_list_raises (events : List EvTuple) (hlen : events.length ≤ 1)
    (end_date : ℤ) (s : CalcState) :
    get_advance_statistics s events end_date =
      .error "AttributeError: NoneType object has no attribute date" := by
  cases events with
  | nil => rfl
  | cons t rest =>
    cases rest with
    | nil => rfl
    | cons t2 rest2 => simp at hlen

/-- C9 witness: the empty events list raises for end date 0. -/
theorem C9_witness :
    get_advance_statistics initState [] 0 =
      .error "AttributeError: NoneType object has no attribute date" :=
  C9_short_list_raises [] (by simp) 0 initState

/-- C10 (confirmed): in the differing-dates advance branch of
`process_event`, when the current event carries the `is_same_date` flag and
the aggregate advance balance after creation is strictly negative, the
negative magnitude is moved into `payments_for_future` and the advance
balance is zeroed before interest accrual; when the flag is not set, both
balances are exactly those produced by advance creation (no conversion). -/
theorem C10_same_date_flag_negative_balance (s : CalcState) (e ne : Event)
    (htype : e.type = "advance") (hdate : e.date ≠ ne.date) :
    (e.is_same_date = true →
      (create_advance (snapshotBalances s) e true).advance_balance < 0 →
      ∃ s' ne', process_event s e ne = .ok (s', ne') ∧
        s'.advance_balance = 0 ∧
        s'.payments_for_future =
          (create_advance (snapshotBalances s) e true).payments_for_future +
            |(create_advance (snapshotBalances s) e true).advance_balance|) ∧
    (e.is_same_date = false →
      ∃ s' ne', process_event s e ne = .ok (s', ne') ∧
        s'.advance_balance =
          (create_advance (snapshotBalances s) e true).advance_balance ∧
        s'.payments_for_future =
          (create_advance (snapshotBalances s) e true).payments_for_future) := by
  constructor
  · intro hflag hneg
    simp only [process_event, if_neg hdate, if_pos htype,
      if_pos (And.intro hflag hneg)]
    exact ⟨_, _, rfl, rfl, rfl⟩
  · intro hflag
    have hcond : ¬(e.is_same_date = true ∧
        (create_advance (snapshotBalances s) e true).advance_balance < 0) := by
      simp [hflag]
    simp only [process_event, if_neg hdate, if_pos htype, if_neg hcond]
    exact ⟨_, _, rfl, rfl, rfl⟩

/-- C10 witness: engine with advance balance -5 and banked credit 30; an
advance of 10 flagged `is_same_date` (dated 0, next event dated 1) nets to
an opening of 0 and credit 20, leaves the aggregate at -5 < 0, and the
conversion yields advance balance 0 and credit 25 = 20 + 5. -/
theorem C10_witness :
    ∃ s' ne', process_event ⟨-5, 0, 0, 30, [], 0, 0, 0, 0, 0, none, none⟩
        ⟨1, "advance", 10, 0, false, true, none⟩
        ⟨2, "advance", 0, 1, false, false, none⟩ = .ok (s', ne') ∧
      s'.advance_balance = 0 ∧ s'.payments_for_future = 25 := by
  have h := (C10_same_date_flag_negative_balance
    ⟨-5, 0, 0, 30, [], 0, 0, 0, 0, 0, none, none⟩
    ⟨1, "advance", 10, 0, false, true, none⟩
    ⟨2, "advance", 0, 1, false, false, none⟩ rfl (by norm_num)).1 rfl
    (by have hopt : ((none : Option String) = some "truncated") = False := by simp
        norm_num [create_advance, snapshotBalances, hopt])
  have hopt : ((none : Option String) = some "truncated") = False := by simp
  have habs : |(-5 : ℚ)| = 5 := by
    rw [abs_of_neg]
    · norm_num
    · norm_num
  norm_num [create_advance, snapshotBalances, hopt, habs] at h
  obtain ⟨s', ⟨x, hx⟩, hab, hpf⟩ := h
  exact ⟨s', x, hx, hab, hpf⟩
